import Mathlib

/-!
Shallow embedding of the Nexus startup population engine
(`nexus/src/populate.rs`): the data model (`PopulateStatus`,
`PopulateArgs`), the eight populators and their fixed registry
(`ALL_POPULATORS`), the retrying executor (`populate`), and the
status-publishing entry point (`populate_start`).  The datastore is an
external collaborator; it is represented as an explicit state-passing
record of the nine calls the populators make, and, where a claim needs a
concrete store, by a logical store modelled from the spec.
-/

namespace Populate

/-- Modelled from the spec: the external error type of the data-access
layer (`omicron_common::api::external::Error`), restricted to the
variants this engine distinguishes: service unavailability (the
transient class), the benign already-exists conflict, malformed input,
and an internal catch-all for every other permanent outcome. -/
inductive Error where
  | serviceUnavailable (internal_message : String)
  | objectAlreadyExists (type_name : String) (object_name : String)
  | invalidRequest (message : String)
  | internalError (internal_message : String)
deriving DecidableEq, Repr

/-- Modelled from the spec: the string rendering (Rust `to_string` via
`Display`) of an external error.  The executor stores this rendering in
the terminal `Failed` status; only which value flows there matters to
the claims, not the exact text. -/
def Error.to_string : Error → String
  | .serviceUnavailable m => "Service Unavailable: " ++ m
  | .objectAlreadyExists t o => "already exists: " ++ t ++ " \x22" ++ o ++ "\x22"
  | .invalidRequest m => "Invalid Request: " ++ m
  | .internalError m => "Internal Error: " ++ m

/-- Status of a populate run, from `populate.rs` lines 58-63. -/
inductive PopulateStatus where
  | NotDone
  | Done
  | Failed (reason : String)
deriving DecidableEq, Repr

/-- Auxiliary data necessary to populate the database, from
`populate.rs` lines 66-68; the opaque `Uuid` rack id is represented by a
natural number. -/
structure PopulateArgs where
  rack_id : Nat
deriving DecidableEq, Repr

/-- Rack model row (`db::model::Rack::new(rack_id)`), reduced to the
only field the populators supply. -/
structure Rack where
  id : Nat
deriving DecidableEq, Repr

/-- Collection kind for the virtual provisioning collection; the fleet
populator only ever uses `Fleet`. -/
inductive CollectionTypeProvisioned where
  | Fleet
deriving DecidableEq, Repr

/-- Virtual provisioning collection row
(`db::model::VirtualProvisioningCollection::new(id, type)`). -/
structure VirtualProvisioningCollection where
  id : Nat
  collection_type : CollectionTypeProvisioned
deriving DecidableEq, Repr

/-- Modelled from the spec: the fixed fleet id constant
(`db::fixed_data::FLEET_ID`), an opaque token represented by a natural
number. -/
def FLEET_ID : Nat := 0

/-- Identity metadata carried by an IP pool creation request
(`IdentityMetadataCreateParams`). -/
structure IdentityMetadataCreateParams where
  name : String
  description : String
deriving DecidableEq, Repr

/-- IP pool creation request (`params::IpPoolCreate`). -/
structure IpPoolCreate where
  identity : IdentityMetadataCreateParams
deriving DecidableEq, Repr

/-- The slice of the datastore interface that the populators call, as an
explicit state-passing record over an abstract store state `σ`: each
call either fails with an external error or returns the updated store
state.  The datastore itself is an external collaborator of this
engine. -/
structure DataStore (σ : Type) where
  load_builtin_users : σ → Except Error σ
  load_builtin_roles : σ → Except Error σ
  load_builtin_role_asgns : σ → Except Error σ
  load_builtin_silos : σ → Except Error σ
  load_silo_users : σ → Except Error σ
  load_silo_user_role_assignments : σ → Except Error σ
  virtual_provisioning_collection_create :
    VirtualProvisioningCollection → σ → Except Error σ
  rack_insert : Rack → σ → Except Error σ
  ip_pool_create : IpPoolCreate → Bool → σ → Except Error σ

/-- A single data-insertion step: the `Populator` trait (`populate.rs`
lines 146-155) together with the `Debug` name the executor logs.  The
`populate` method is polymorphic in the store state because the
datastore is abstract. -/
structure NamedPopulator where
  name : String
  populate : {σ : Type} → DataStore σ → σ → PopulateArgs → Except Error σ

/-- `PopulateBuiltinUsers` (`populate.rs` lines 158-172): load the
built-in users; ignores the args. -/
def populateBuiltinUsers : NamedPopulator where
  name := "PopulateBuiltinUsers"
  populate := fun ds s _ => ds.load_builtin_users s

/-- `PopulateBuiltinRoles` (`populate.rs` lines 175-189): load the
built-in roles; ignores the args. -/
def populateBuiltinRoles : NamedPopulator where
  name := "PopulateBuiltinRoles"
  populate := fun ds s _ => ds.load_builtin_roles s

/-- `PopulateBuiltinRoleAssignments` (`populate.rs` lines 192-207): load
the built-in role assignments; ignores the args. -/
def populateBuiltinRoleAssignments : NamedPopulator where
  name := "PopulateBuiltinRoleAssignments"
  populate := fun ds s _ => ds.load_builtin_role_asgns s

/-- `PopulateBuiltinSilos` (`populate.rs` lines 210-224): load the
built-in silos; ignores the args. -/
def populateBuiltinSilos : NamedPopulator where
  name := "PopulateBuiltinSilos"
  populate := fun ds s _ => ds.load_builtin_silos s

/-- `PopulateSiloUsers` (`populate.rs` lines 233-247): load the silo
users; ignores the args. -/
def populateSiloUsers : NamedPopulator where
  name := "PopulateSiloUsers"
  populate := fun ds s _ => ds.load_silo_users s

/-- `PopulateSiloUserRoleAssignments` (`populate.rs` lines 250-267):
load the silo-user role assignments; ignores the args. -/
def populateSiloUserRoleAssignments : NamedPopulator where
  name := "PopulateSiloUserRoleAssignments"
  populate := fun ds s _ => ds.load_silo_user_role_assignments s

/-- `PopulateFleet` (`populate.rs` lines 269-297): create the fleet
virtual provisioning collection.  Every error of the creation call is
propagated with `?`; there is no already-exists tolerance here.  Ignores
the args. -/
def populateFleet : NamedPopulator where
  name := "PopulateFleet"
  populate := fun ds s _ =>
    ds.virtual_provisioning_collection_create
      { id := FLEET_ID, collection_type := .Fleet } s

/-- The `or_else` applied to each IP pool creation in `PopulateRack`
(`populate.rs` lines 326-329 and 341-344): an `ObjectAlreadyExists`
error becomes success, keeping the current store state; every other
error propagates. -/
def orElseAlreadyExists {σ : Type} (r : Except Error σ) (s : σ) : Except Error σ :=
  match r with
  | .ok s' => .ok s'
  | .error (.objectAlreadyExists _ _) => .ok s
  | .error e => .error e

/-- The parameters of the internal service IP pool created by
`PopulateRack` (`populate.rs` lines 316-321). -/
def servicePoolParams : IpPoolCreate :=
  { identity := { name := "oxide-service-pool"
                  description := "IP Pool for Oxide Services" } }

/-- The parameters of the default IP pool created by `PopulateRack`
(`populate.rs` lines 331-336). -/
def defaultPoolParams : IpPoolCreate :=
  { identity := { name := "default", description := "default IP pool" } }

/-- `PopulateRack` (`populate.rs` lines 299-350): insert the rack record
for `args.rack_id`, then create the service IP pool and the default IP
pool, each tolerating `ObjectAlreadyExists` as success.  This is the
only populator that reads the args. -/
def populateRack : NamedPopulator where
  name := "PopulateRack"
  populate := fun ds s args => do
    let s1 ← ds.rack_insert { id := args.rack_id } s
    let s2 ← orElseAlreadyExists (ds.ip_pool_create servicePoolParams true s1) s1
    let s3 ← orElseAlreadyExists (ds.ip_pool_create defaultPoolParams false s2) s2
    pure s3

/-- The fixed, ordered step registry `ALL_POPULATORS` (`populate.rs`
lines 352-363). -/
def ALL_POPULATORS : List NamedPopulator :=
  [ populateBuiltinUsers
  , populateBuiltinRoles
  , populateBuiltinRoleAssignments
  , populateBuiltinSilos
  , populateSiloUsers
  , populateSiloUserRoleAssignments
  , populateFleet
  , populateRack ]

/-- The error classification performed by the executor's retry closure
(`populate.rs` lines 105-112): a `ServiceUnavailable` error becomes
`BackoffError::transient`, every other error becomes
`BackoffError::Permanent`. -/
def isTransientError : Error → Bool
  | .serviceUnavailable _ => true
  | _ => false

/-- Log events emitted by the executor: the warning logged by the
`retry_notify` callback on each transient failure (`populate.rs` lines
114-122), carrying the step, the error, and the computed delay; and the
error-level gave-up event on a permanent failure (lines 130-134),
carrying the step and the error. -/
inductive LogEvent where
  | warnRetry (step : Nat) (error : Error) (delay : Nat)
  | gaveUp (step : Nat) (error : Error)
deriving DecidableEq, Repr

/-- Translation of `backoff::retry_notify` as instantiated by `populate`
(`populate.rs` lines 102-124) for one step: `b k` is the outcome of the
step's k-th populate call (the datastore is external, so outcomes per
attempt are abstracted as a function), and `delays k` the backoff delay
the policy computes after attempt `k`.  The source loops without bound
on transient errors, so `fuel` bounds how many transient retries are
unfolded.  Returns the `(step, attempt)` pairs invoked, the warning log
produced by the notify callback, and the settled outcome; `none` means
the loop was still retrying when the fuel ran out. -/
def retryLoop (delays : Nat → Nat) (step : Nat) (b : Nat → Except Error Unit) :
    Nat → Nat → List (Nat × Nat) × List LogEvent × Option (Except Error Unit)
  | fuel, k =>
    match b k with
    | .ok _ => ([(step, k)], [], some (.ok ()))
    | .error e =>
      if isTransientError e then
        match fuel with
        | 0 => ([(step, k)], [.warnRetry step e (delays k)], none)
        | f + 1 =>
          let r := retryLoop delays step b f (k + 1)
          ((step, k) :: r.1, .warnRetry step e (delays k) :: r.2.1, r.2.2)
      else ([(step, k)], [], some (.error e))

/-- The executor loop of `populate` (`populate.rs` lines 96-140) over a
list of abstract step behaviors, starting at step index `idx`: each step
is retried until its outcome settles; a permanent error is logged
(gave-up event), rendered with `to_string`, and aborts the run; the run
returns `Ok` only after the last step settles successfully.  `none`
propagates an unsettled (still retrying) step. -/
def populateFrom (delays : Nat → Nat) (fuel : Nat) :
    List (Nat → Except Error Unit) → Nat →
    List (Nat × Nat) × List LogEvent × Option (Except String Unit)
  | [], _ => ([], [], some (.ok ()))
  | b :: rest, idx =>
    let r := retryLoop delays idx b fuel 0
    match r.2.2 with
    | none => (r.1, r.2.1, none)
    | some (.error e) =>
        (r.1, r.2.1 ++ [.gaveUp idx e], some (.error (Error.to_string e)))
    | some (.ok _) =>
        let r2 := populateFrom delays fuel rest (idx + 1)
        (r.1 ++ r2.1, r.2.1 ++ r2.2.1, r2.2.2)

/-- `populate` (`populate.rs` lines 96-140): run every step behavior in
order from index 0. -/
def populate (delays : Nat → Nat) (steps : List (Nat → Except Error Unit))
    (fuel : Nat) :
    List (Nat × Nat) × List LogEvent × Option (Except String Unit) :=
  populateFrom delays fuel steps 0

/-- Log events of the registry-level run, naming steps by their `Debug`
name as the source's log macros do. -/
inductive RunLog where
  | warnRetry (stepName : String) (error : Error)
  | gaveUp (stepName : String) (error : Error)
deriving DecidableEq, Repr

/-- The executor of `populate` (`populate.rs` lines 96-140) specialised
to the registry of stateful populators over a datastore that is a pure
function of the store state: every retry attempt of a step then repeats
the same outcome, so a step settles on its first attempt unless that
attempt is a transient error, in which case the retry loop never settles
(`none`, with the warning of the unending retry sequence truncated to
its first event).  Returns the `Debug` names of the populators invoked,
in invocation order, the log, and the outcome. -/
def populateState {σ : Type} (ds : DataStore σ) (args : PopulateArgs) :
    List NamedPopulator → σ →
    List String × List RunLog × Option (Except String σ)
  | [], s => ([], [], some (.ok s))
  | p :: rest, s =>
    match p.populate ds s args with
    | .ok s' =>
        let r := populateState ds args rest s'
        (p.name :: r.1, r.2.1, r.2.2)
    | .error e =>
        if isTransientError e then
          ([p.name], [.warnRetry p.name e], none)
        else
          ([p.name], [.gaveUp p.name e], some (.error (Error.to_string e)))

/-- Plain sequential composition of the populators, with no retry and no
logging: the reference fold against which the executor's success path is
compared. -/
def runAll {σ : Type} (ds : DataStore σ) (args : PopulateArgs) :
    List NamedPopulator → σ → Except Error σ
  | [], s => .ok s
  | p :: rest, s => (p.populate ds s args).bind (runAll ds args rest)

/-- The terminal status computed from the run result by `populate_start`
(`populate.rs` lines 85-88): `Done` on success, `Failed` carrying the
error string on failure. -/
def terminalOf : Except String Unit → PopulateStatus
  | .ok _ => .Done
  | .error m => .Failed m

/-- Log event of the spawned task in `populate_start`: the
nobody-waiting error message (`populate.rs` line 89), carrying the
status value that could not be delivered. -/
inductive StartLog where
  | noReaders (value : PopulateStatus)
deriving DecidableEq, Repr

/-- Sending on the watch channel (`tx.send`): succeeds when a receiver
remains, otherwise hands the undelivered value back as an error, as
tokio's `SendError` does. -/
def sendStatus (hasReaders : Bool) (v : PopulateStatus) :
    Except PopulateStatus Unit :=
  if hasReaders then .ok () else .error v

/-- Body of the task spawned by `populate_start` (`populate.rs` lines
83-91) after `populate` has returned `result`: compute the terminal
status and send it; when the send fails because no readers remain, log
the nobody-waiting event and discard the value.  Returns the log and the
list of values actually stored in the cell; the task itself always
returns normally (its type has no error component). -/
def runTask (hasReaders : Bool) (result : Except String Unit) :
    List StartLog × List PopulateStatus :=
  match sendStatus hasReaders (terminalOf result) with
  | .ok _ => ([], [terminalOf result])
  | .error v => ([.noReaders v], [])

/-- `populate_start` (`populate.rs` lines 76-94), observed through the
history of values held by the watch cell it creates: the cell starts at
`NotDone`; when the spawned run terminates (`populate` settles) the
task's single send appends the terminal value, and an unsettled run
leaves the cell at `NotDone`.  Also returns the task's log. -/
def populate_start (hasReaders : Bool) (delays : Nat → Nat)
    (steps : List (Nat → Except Error Unit)) (fuel : Nat) :
    List StartLog × List PopulateStatus :=
  match (populate delays steps fuel).2.2 with
  | none => ([], [.NotDone])
  | some result =>
    let t := runTask hasReaders result
    (t.1, .NotDone :: t.2)

/-- Insert an element into a list unless it is already present; the
idempotent-upsert primitive of the logical store model. -/
def insertAbsent {α : Type} [DecidableEq α] (x : α) (xs : List α) : List α :=
  if x ∈ xs then xs else xs ++ [x]

/-- Insert every element of a fixed list, in order, each unless already
present. -/
def insertAll {α : Type} [DecidableEq α] (l : List α) (xs : List α) : List α :=
  l.foldl (fun acc x => insertAbsent x acc) xs

/-- Modelled from the spec: the logical state of the store as the
population engine sees it — one collection of logical entities per
baseline category, plus the rack records and IP pools. -/
structure Store where
  builtin_users : List String
  builtin_roles : List String
  builtin_role_asgns : List String
  silos : List String
  silo_users : List String
  silo_user_role_asgns : List String
  provisioning_collections : List Nat
  racks : List Nat
  ip_pools : List String
deriving DecidableEq, Repr

/-- Modelled from the spec: the fixed, version-shipped baseline rows of
each category (the concrete names are opaque to the engine; only that
each category is a fixed finite set matters). -/
def BUILTIN_USER_NAMES : List String := ["db-init", "service-balancer"]

/-- Modelled from the spec: the fixed built-in role names. -/
def BUILTIN_ROLE_NAMES : List String := ["fleet.admin", "silo.admin"]

/-- Modelled from the spec: the fixed built-in role assignments. -/
def BUILTIN_ROLE_ASGN_NAMES : List String := ["fleet.admin-db-init"]

/-- Modelled from the spec: the fixed built-in silo names. -/
def BUILTIN_SILO_NAMES : List String := ["default-silo"]

/-- Modelled from the spec: the fixed silo user names. -/
def SILO_USER_NAMES : List String := ["test-privileged", "test-unprivileged"]

/-- Modelled from the spec: the fixed silo-user role assignments. -/
def SILO_USER_ROLE_ASGN_NAMES : List String := ["silo.admin-test-privileged"]

/-- Modelled from the spec: the datastore calls the populators make, as
idempotent upserts on the logical store ("insert and ignore
pre-existing"), except IP pool creation, which fails with
`ObjectAlreadyExists` on a duplicate pool name (the rack populator
absorbs that error itself), matching the external-interface contract the
spec describes for each call. -/
def specDataStore : DataStore Store where
  load_builtin_users := fun s =>
    .ok { s with builtin_users := insertAll BUILTIN_USER_NAMES s.builtin_users }
  load_builtin_roles := fun s =>
    .ok { s with builtin_roles := insertAll BUILTIN_ROLE_NAMES s.builtin_roles }
  load_builtin_role_asgns := fun s =>
    .ok { s with builtin_role_asgns :=
            insertAll BUILTIN_ROLE_ASGN_NAMES s.builtin_role_asgns }
  load_builtin_silos := fun s =>
    .ok { s with silos := insertAll BUILTIN_SILO_NAMES s.silos }
  load_silo_users := fun s =>
    .ok { s with silo_users := insertAll SILO_USER_NAMES s.silo_users }
  load_silo_user_role_assignments := fun s =>
    .ok { s with silo_user_role_asgns :=
            insertAll SILO_USER_ROLE_ASGN_NAMES s.silo_user_role_asgns }
  virtual_provisioning_collection_create := fun c s =>
    .ok { s with provisioning_collections :=
            insertAbsent c.id s.provisioning_collections }
  rack_insert := fun r s => .ok { s with racks := insertAbsent r.id s.racks }
  ip_pool_create := fun p _ s =>
    if p.identity.name ∈ s.ip_pools then
      .error (.objectAlreadyExists "ip-pool" p.identity.name)
    else
      .ok { s with ip_pools := s.ip_pools ++ [p.identity.name] }

/-- The empty logical store. -/
def emptyStore : Store :=
  { builtin_users := [], builtin_roles := [], builtin_role_asgns := []
    silos := [], silo_users := [], silo_user_role_asgns := []
    provisioning_collections := [], racks := [], ip_pools := [] }

/-- A datastore over the one-point store in which every call succeeds
except the fleet provisioning-collection creation, which fails with a
permanent (non-unavailability) error. -/
def failFleetStore : DataStore Unit where
  load_builtin_users := fun s => .ok s
  load_builtin_roles := fun s => .ok s
  load_builtin_role_asgns := fun s => .ok s
  load_builtin_silos := fun s => .ok s
  load_silo_users := fun s => .ok s
  load_silo_user_role_assignments := fun s => .ok s
  virtual_provisioning_collection_create := fun _ _ =>
    .error (.invalidRequest "boom")
  rack_insert := fun _ s => .ok s
  ip_pool_create := fun _ _ s => .ok s

/-- A datastore over store state `Nat` that records the rack id passed
to `rack_insert`, separating behaviours that read the rack id from
behaviours that do not. -/
def rackSensitiveStore : DataStore Nat where
  load_builtin_users := fun s => .ok s
  load_builtin_roles := fun s => .ok s
  load_builtin_role_asgns := fun s => .ok s
  load_builtin_silos := fun s => .ok s
  load_silo_users := fun s => .ok s
  load_silo_user_role_assignments := fun s => .ok s
  virtual_provisioning_collection_create := fun _ s => .ok s
  rack_insert := fun r _ => .ok r.id
  ip_pool_create := fun _ _ s => .ok s

/-- A datastore over the one-point store in which both IP pool creations
fail with `ObjectAlreadyExists` and the fleet creation fails with an
internal error; every other call succeeds. -/
def conflictStore : DataStore Unit where
  load_builtin_users := fun s => .ok s
  load_builtin_roles := fun s => .ok s
  load_builtin_role_asgns := fun s => .ok s
  load_builtin_silos := fun s => .ok s
  load_silo_users := fun s => .ok s
  load_silo_user_role_assignments := fun s => .ok s
  virtual_provisioning_collection_create := fun _ _ =>
    .error (.internalError "fleet conflict")
  rack_insert := fun _ s => .ok s
  ip_pool_create := fun p _ _ =>
    .error (.objectAlreadyExists "ip-pool" p.identity.name)

/-- C1: for every step and every error its populate call returns, the
executor classifies the error into exactly two classes — the transient
class holds exactly the `ServiceUnavailable` errors, and a transient
error makes the retry loop log a warning with the computed backoff delay
and invoke the same step again at the next attempt, while any other
error stops the retry loop at once and makes the run abort with a
`Failed`-rendered result, never retrying. -/
theorem claim_C1 :
    (∀ e : Error, isTransientError e = true ↔
      ∃ m, e = Error.serviceUnavailable m)
    ∧ (∀ (delays : Nat → Nat) (step : Nat) (b : Nat → Except Error Unit)
        (fuel k : Nat) (e : Error),
        b k = .error e → isTransientError e = true →
        retryLoop delays step b (fuel + 1) k =
          ((step, k) :: (retryLoop delays step b fuel (k + 1)).1,
           LogEvent.warnRetry step e (delays k) ::
             (retryLoop delays step b fuel (k + 1)).2.1,
           (retryLoop delays step b fuel (k + 1)).2.2))
    ∧ (∀ (delays : Nat → Nat) (step : Nat) (b : Nat → Except Error Unit)
        (fuel k : Nat) (e : Error),
        b k = .error e → isTransientError e = false →
        retryLoop delays step b fuel k = ([(step, k)], [], some (.error e)))
    ∧ (∀ (delays : Nat → Nat) (rest : List (Nat → Except Error Unit))
        (fuel idx : Nat) (b : Nat → Except Error Unit) (e : Error),
        b 0 = .error e → isTransientError e = false →
        (populateFrom delays fuel (b :: rest) idx).2.2 =
          some (.error (Error.to_string e))) := by
  refine ⟨?_, ?_, ?_, ?_⟩
  · intro e
    cases e <;> simp [isTransientError]
  · intro delays step b fuel k e hb ht
    conv_lhs => rw [retryLoop]
    rw [hb]
    simp [ht]
  · intro delays step b fuel k e hb ht
    cases fuel <;>
      · conv_lhs => rw [retryLoop]
        rw [hb]
        simp [ht]
  · intro delays rest fuel idx b e hb ht
    have hr : retryLoop delays idx b fuel 0 =
        ([(idx, 0)], [], some (.error e)) := by
      cases fuel <;>
        · conv_lhs => rw [retryLoop]
          rw [hb]
          simp [ht]
    simp [populateFrom, hr]

/-- Closed instance of `claim_C1`: a permanent error on the first
attempt stops the retry loop immediately with that error. -/
theorem claim_C1_witness :
    retryLoop (fun _ => 1) 0 (fun _ => .error (.invalidRequest "bad")) 5 0 =
      ([(0, 0)], [], some (.error (.invalidRequest "bad"))) :=
  claim_C1.2.2.1 (fun _ => 1) 0 (fun _ => .error (.invalidRequest "bad"))
    5 0 (.invalidRequest "bad") rfl rfl

/-- C2: the status cell handed back by populate_start starts at
`NotDone`; while the run has not terminated the cell history is exactly
the initial value; when the run terminates (and a reader remains so the
send succeeds) the history is exactly the initial value followed by one
terminal write, `Done` on success and `Failed reason` on failure, and
nothing is ever written after it (the history has at most two
entries). -/
theorem claim_C2 (hr : Bool) (delays : Nat → Nat)
    (steps : List (Nat → Except Error Unit)) (fuel : Nat) :
    (populate_start hr delays steps fuel).2.head? = some PopulateStatus.NotDone
    ∧ (populate_start hr delays steps fuel).2.length ≤ 2
    ∧ ((populate delays steps fuel).2.2 = none →
        (populate_start hr delays steps fuel).2 = [PopulateStatus.NotDone])
    ∧ (∀ r, (populate delays steps fuel).2.2 = some r → hr = true →
        (populate_start hr delays steps fuel).2 =
          [PopulateStatus.NotDone, terminalOf r])
    ∧ (∀ u, terminalOf (.ok u) = PopulateStatus.Done)
    ∧ (∀ m, terminalOf (.error m) = PopulateStatus.Failed m) := by
  refine ⟨?_, ?_, ?_, ?_, ?_, ?_⟩
  · unfold populate_start
    cases h : (populate delays steps fuel).2.2 with
    | none => simp
    | some r => cases hr <;> simp [runTask, sendStatus]
  · unfold populate_start
    cases h : (populate delays steps fuel).2.2 with
    | none => simp
    | some r => cases hr <;> simp [runTask, sendStatus]
  · intro h
    unfold populate_start
    rw [h]
  · intro r h hhr
    subst hhr
    unfold populate_start
    rw [h]
    simp [runTask, sendStatus]
  · intro u
    rfl
  · intro m
    rfl

/-- Closed instance of `claim_C2`: a one-step run that succeeds
immediately writes exactly one terminal value, `Done`, after the initial
`NotDone`. -/
theorem claim_C2_witness :
    (populate_start true (fun _ => 1) [fun _ => .ok ()] 0).2 =
      [PopulateStatus.NotDone, PopulateStatus.Done] :=
  (claim_C2 true (fun _ => 1) [fun _ => .ok ()] 0).2.2.2.1 (.ok ()) rfl rfl

/-- C8: when no readers remain on the status cell at termination, the
send fails and the spawned task treats that as a non-error: it logs the
nobody-waiting event carrying the undelivered value, stores nothing in
the cell, and returns normally (its result type has no failure
component), whatever the run result was. -/
theorem claim_C8 (result : Except String Unit) :
    runTask false result = ([StartLog.noReaders (terminalOf result)], []) := by
  simp [runTask, sendStatus]

/-- C7: the fleet populator propagates every error of its provisioning
collection creation call — including an already-exists conflict — as a
failure of the step, while the rack populator turns an
`ObjectAlreadyExists` error of either of its two IP pool creations into
success, so that with the rack inserted and both pools reported as
already existing the whole step succeeds. -/
theorem claim_C7 :
    (∀ (σ : Type) (ds : DataStore σ) (s : σ) (args : PopulateArgs) (e : Error),
      ds.virtual_provisioning_collection_create
          { id := FLEET_ID, collection_type := .Fleet } s = .error e →
      populateFleet.populate ds s args = .error e)
    ∧ (∀ (σ : Type) (s : σ) (t o : String),
      orElseAlreadyExists (σ := σ)
          (.error (Error.objectAlreadyExists t o)) s = .ok s)
    ∧ (∀ (σ : Type) (ds : DataStore σ) (s s1 : σ) (args : PopulateArgs)
        (t1 o1 t2 o2 : String),
      ds.rack_insert { id := args.rack_id } s = .ok s1 →
      ds.ip_pool_create servicePoolParams true s1 =
        .error (.objectAlreadyExists t1 o1) →
      ds.ip_pool_create defaultPoolParams false s1 =
        .error (.objectAlreadyExists t2 o2) →
      populateRack.populate ds s args = .ok s1) := by
  refine ⟨?_, ?_, ?_⟩
  · intro σ ds s args e h
    simp [populateFleet, h]
  · intro σ s t o
    rfl
  · intro σ ds s s1 args t1 o1 t2 o2 hrack hp1 hp2
    simp [populateRack, hrack, hp1, hp2, orElseAlreadyExists, Bind.bind,
      Except.bind]
    rfl

/-- Closed instance of `claim_C7`: against a datastore whose pool
creations both report an already-exists conflict, the rack populator
succeeds. -/
theorem claim_C7_witness :
    populateRack.populate conflictStore () { rack_id := 0 } = .ok () :=
  claim_C7.2.2 Unit conflictStore () () { rack_id := 0 }
    "ip-pool" "oxide-service-pool" "ip-pool" "default" rfl rfl rfl

/-- C9: each of the first seven populators of the registry ignores the
`PopulateArgs` — its populate call returns the same outcome for any two
args values, in particular for two args differing only in the rack id —
while the rack populator does read `args.rack_id`: there is a datastore
and a store state on which two rack ids produce different outcomes. -/
theorem claim_C9 :
    (∀ p ∈ ALL_POPULATORS.take 7, ∀ (σ : Type) (ds : DataStore σ) (s : σ)
        (a1 a2 : PopulateArgs), p.populate ds s a1 = p.populate ds s a2)
    ∧ (∃ (s : Nat) (a1 a2 : PopulateArgs),
        populateRack.populate rackSensitiveStore s a1 ≠
          populateRack.populate rackSensitiveStore s a2) := by
  constructor
  · intro p hp σ ds s a1 a2
    simp [ALL_POPULATORS, List.take] at hp
    rcases hp with rfl | rfl | rfl | rfl | rfl | rfl | rfl <;> rfl
  · refine ⟨0, { rack_id := 1 }, { rack_id := 2 }, ?_⟩
    simp only [populateRack, rackSensitiveStore, orElseAlreadyExists,
      Bind.bind, Except.bind]
    intro h
    exact absurd (Except.ok.inj h) (by decide)

/-- Closed instance of `claim_C9`: the built-in users populator returns
the same outcome for two args differing in the rack id. -/
theorem claim_C9_witness :
    populateBuiltinUsers.populate rackSensitiveStore 0 { rack_id := 1 } =
      populateBuiltinUsers.populate rackSensitiveStore 0 { rack_id := 2 } :=
  claim_C9.1 populateBuiltinUsers (by simp [ALL_POPULATORS, List.take])
    Nat rackSensitiveStore 0 { rack_id := 1 } { rack_id := 2 }

/-- A prefix of populators on which the plain sequential composition
succeeds is walked by the executor without any log, invoking every
populator of the prefix in order, after which the executor continues on
the remaining populators from the reached state. -/
theorem populateState_append {σ : Type} (ds : DataStore σ) (args : PopulateArgs)
    (pre rest : List NamedPopulator) (s s1 : σ)
    (h : runAll ds args pre s = .ok s1) :
    populateState ds args (pre ++ rest) s =
      (pre.map NamedPopulator.name ++ (populateState ds args rest s1).1,
       (populateState ds args rest s1).2.1,
       (populateState ds args rest s1).2.2) := by
  induction pre generalizing s with
  | nil =>
    simp [runAll] at h
    subst h
    simp
  | cons p pre ih =>
    cases hp : p.populate ds s args with
    | error e =>
      rw [runAll, hp] at h
      simp [Except.bind] at h
    | ok s' =>
      rw [runAll, hp] at h
      simp only [Except.bind] at h
      simp [populateState, hp, ih s' h]

/-- A permanent (non-unavailability) failure of a populator stops the
executor: no later populator is invoked, the gave-up event naming the
failing populator is logged, and the run result is the rendered
error. -/
theorem populateState_permanent {σ : Type} (ds : DataStore σ)
    (args : PopulateArgs) (pre post : List NamedPopulator)
    (p : NamedPopulator) (s s1 : σ) (e : Error)
    (hpre : runAll ds args pre s = .ok s1)
    (hp : p.populate ds s1 args = .error e)
    (hperm : isTransientError e = false) :
    populateState ds args (pre ++ p :: post) s =
      (pre.map NamedPopulator.name ++ [p.name],
       [RunLog.gaveUp p.name e],
       some (.error (Error.to_string e))) := by
  rw [populateState_append ds args pre (p :: post) s s1 hpre]
  simp [populateState, hp, hperm]

/-- C3: if a populator of the registry returns a permanent failure after
the populators before it succeeded, the populators after it are never
invoked — the executor's invocation list stops at the failing populator
— and the run's terminal result is `Failed`, carrying the failing
populator's rendered error while the gave-up log names that
populator. -/
theorem claim_C3 (σ : Type) (ds : DataStore σ) (args : PopulateArgs)
    (pre post : List NamedPopulator) (p : NamedPopulator) (s s1 : σ)
    (e : Error)
    (hreg : ALL_POPULATORS = pre ++ p :: post)
    (hpre : runAll ds args pre s = .ok s1)
    (hp : p.populate ds s1 args = .error e)
    (hperm : isTransientError e = false) :
    populateState ds args ALL_POPULATORS s =
      (pre.map NamedPopulator.name ++ [p.name],
       [RunLog.gaveUp p.name e],
       some (.error (Error.to_string e)))
    ∧ terminalOf (.error (Error.to_string e)) =
        PopulateStatus.Failed (Error.to_string e) := by
  rw [hreg]
  exact ⟨populateState_permanent ds args pre post p s s1 e hpre hp hperm, rfl⟩

/-- Closed instance of `claim_C3`: with the fleet creation failing
permanently, the run stops after the seventh populator; the rack
populator is never invoked and the status is `Failed` with the fleet
error's rendering. -/
theorem claim_C3_witness :
    populateState failFleetStore { rack_id := 0 } ALL_POPULATORS () =
      (["PopulateBuiltinUsers", "PopulateBuiltinRoles",
        "PopulateBuiltinRoleAssignments", "PopulateBuiltinSilos",
        "PopulateSiloUsers", "PopulateSiloUserRoleAssignments",
        "PopulateFleet"],
       [RunLog.gaveUp "PopulateFleet" (.invalidRequest "boom")],
       some (.error (Error.to_string (.invalidRequest "boom")))) :=
  (claim_C3 Unit failFleetStore { rack_id := 0 }
    [populateBuiltinUsers, populateBuiltinRoles,
     populateBuiltinRoleAssignments, populateBuiltinSilos,
     populateSiloUsers, populateSiloUserRoleAssignments]
    [populateRack] populateFleet () () (.invalidRequest "boom")
    rfl rfl rfl rfl).1

/-- C10: under the same abort scenario, the reason inside the terminal
`Failed` status is exactly the `to_string` rendering of the first
permanent error returned by the failing populator, and the identity of
that populator appears only in the log (the gave-up event), not in the
status value, which carries the bare error string. -/
theorem claim_C10 (σ : Type) (ds : DataStore σ) (args : PopulateArgs)
    (pre post : List NamedPopulator) (p : NamedPopulator) (s s1 : σ)
    (e : Error)
    (hreg : ALL_POPULATORS = pre ++ p :: post)
    (hpre : runAll ds args pre s = .ok s1)
    (hp : p.populate ds s1 args = .error e)
    (hperm : isTransientError e = false) :
    (populateState ds args ALL_POPULATORS s).2.2 =
      some (.error (Error.to_string e))
    ∧ (populateState ds args ALL_POPULATORS s).2.1 =
        [RunLog.gaveUp p.name e]
    ∧ terminalOf (.error (Error.to_string e)) =
        PopulateStatus.Failed (Error.to_string e) := by
  rw [hreg, populateState_permanent ds args pre post p s s1 e hpre hp hperm]
  exact ⟨rfl, rfl, rfl⟩

/-- Closed instance of `claim_C10`: the failed run's status carries
exactly the rendered fleet error, and the log carries the populator
name. -/
theorem claim_C10_witness :
    (populateState failFleetStore { rack_id := 0 } ALL_POPULATORS ()).2.2 =
      some (.error (Error.to_string (.invalidRequest "boom"))) :=
  (claim_C10 Unit failFleetStore { rack_id := 0 }
    [populateBuiltinUsers, populateBuiltinRoles,
     populateBuiltinRoleAssignments, populateBuiltinSilos,
     populateSiloUsers, populateSiloUserRoleAssignments]
    [populateRack] populateFleet () () (.invalidRequest "boom")
    rfl rfl rfl rfl).1

/-- The populators the executor invokes always form a prefix of the
registry's name list: later steps never run before or without earlier
ones. -/
theorem populateState_invoked_prefix {σ : Type} (ds : DataStore σ)
    (args : PopulateArgs) (ps : List NamedPopulator) (s : σ) :
    ∃ t, (populateState ds args ps s).1 ++ t =
      ps.map NamedPopulator.name := by
  induction ps generalizing s with
  | nil => exact ⟨[], rfl⟩
  | cons p ps ih =>
    cases hp : p.populate ds s args with
    | ok s' =>
      obtain ⟨t, ht⟩ := ih s'
      exact ⟨t, by simp [populateState, hp, ht]⟩
    | error e =>
      cases hte : isTransientError e <;>
        exact ⟨ps.map NamedPopulator.name, by simp [populateState, hp, hte]⟩

/-- The executor returns success exactly when the plain sequential
composition of all populators succeeds: each step ran only after all
earlier ones succeeded, and the run result is the state after the last
step. -/
theorem populateState_ok_iff {σ : Type} (ds : DataStore σ)
    (args : PopulateArgs) (ps : List NamedPopulator) (s s' : σ) :
    (populateState ds args ps s).2.2 = some (.ok s') ↔
      runAll ds args ps s = .ok s' := by
  induction ps generalizing s with
  | nil => simp [populateState, runAll]
  | cons p ps ih =>
    cases hp : p.populate ds s args with
    | ok s1 => simp [populateState, runAll, hp, Except.bind, ih s1]
    | error e =>
      cases hte : isTransientError e <;>
        simp [populateState, runAll, hp, hte, Except.bind]

/-- When the executor returns success, every populator of the list was
invoked, in registry order. -/
theorem populateState_ok_invoked {σ : Type} (ds : DataStore σ)
    (args : PopulateArgs) (ps : List NamedPopulator) (s s' : σ)
    (h : (populateState ds args ps s).2.2 = some (.ok s')) :
    (populateState ds args ps s).1 = ps.map NamedPopulator.name := by
  induction ps generalizing s with
  | nil => simp [populateState]
  | cons p ps ih =>
    cases hp : p.populate ds s args with
    | ok s1 =>
      rw [populateState] at h ⊢
      rw [hp] at h ⊢
      simpa using ih s1 (by simpa using h)
    | error e =>
      rw [populateState, hp] at h
      cases hte : isTransientError e <;> simp [hte] at h

/-- C4: the step registry is the fixed sequence of exactly eight
populators, in the order built-in users, built-in roles, built-in role
assignments, built-in silos, silo users, silo-user role assignments,
fleet provisioning-accounting record, rack record with its address
pools; the executor invokes them strictly in this order (the invoked
list is always a prefix of the registry's names), a step runs only after
all earlier steps succeeded, and the run returns success exactly when
the sequential composition of all eight steps succeeds — in which case
every one of the eight was invoked. -/
theorem claim_C4 :
    ALL_POPULATORS.length = 8
    ∧ ALL_POPULATORS.map NamedPopulator.name =
        ["PopulateBuiltinUsers", "PopulateBuiltinRoles",
         "PopulateBuiltinRoleAssignments", "PopulateBuiltinSilos",
         "PopulateSiloUsers", "PopulateSiloUserRoleAssignments",
         "PopulateFleet", "PopulateRack"]
    ∧ (∀ (σ : Type) (ds : DataStore σ) (args : PopulateArgs) (s : σ),
        ∃ t, (populateState ds args ALL_POPULATORS s).1 ++ t =
          ALL_POPULATORS.map NamedPopulator.name)
    ∧ (∀ (σ : Type) (ds : DataStore σ) (args : PopulateArgs) (s s' : σ),
        (populateState ds args ALL_POPULATORS s).2.2 = some (.ok s') ↔
          runAll ds args ALL_POPULATORS s = .ok s')
    ∧ (∀ (σ : Type) (ds : DataStore σ) (args : PopulateArgs) (s s' : σ),
        (populateState ds args ALL_POPULATORS s).2.2 = some (.ok s') →
        (populateState ds args ALL_POPULATORS s).1 =
          ALL_POPULATORS.map NamedPopulator.name) := by
  refine ⟨rfl, rfl, ?_, ?_, ?_⟩
  · intro σ ds args s
    exact populateState_invoked_prefix ds args ALL_POPULATORS s
  · intro σ ds args s s'
    exact populateState_ok_iff ds args ALL_POPULATORS s s'
  · intro σ ds args s s' h
    exact populateState_ok_invoked ds args ALL_POPULATORS s s' h

/-- The store produced by a full successful pass of the registry over
the spec-modelled datastore, starting from the empty store with rack
id 0. -/
def populatedStore : Store :=
  { builtin_users := BUILTIN_USER_NAMES
    builtin_roles := BUILTIN_ROLE_NAMES
    builtin_role_asgns := BUILTIN_ROLE_ASGN_NAMES
    silos := BUILTIN_SILO_NAMES
    silo_users := SILO_USER_NAMES
    silo_user_role_asgns := SILO_USER_ROLE_ASGN_NAMES
    provisioning_collections := [FLEET_ID]
    racks := [0]
    ip_pools := ["oxide-service-pool", "default"] }

/-- Closed instance of `claim_C4`: against the spec-modelled datastore
on the empty store the run succeeds, so all eight populators were
invoked in registry order. -/
theorem claim_C4_witness :
    (populateState specDataStore { rack_id := 0 } ALL_POPULATORS
        emptyStore).1 =
      ALL_POPULATORS.map NamedPopulator.name :=
  claim_C4.2.2.2.2 Store specDataStore { rack_id := 0 } emptyStore
    populatedStore (by rfl)

/-- C5: against a step whose every attempt returns `ServiceUnavailable`,
the retry loop makes one attempt per fuel unit without ever settling,
logging on each failed attempt a warning carrying the step, the error,
and the computed delay; consequently a run that reaches such a step
(every earlier step succeeding) settles to no result at all for any
fuel — the status cell stays at `NotDone`, so the unavailability is
never surfaced as `Done` or `Failed` — and no run containing such a step
can ever return success. -/
theorem claim_C5 (delays : Nat → Nat) (msg : Nat → String)
    (b : Nat → Except Error Unit)
    (hb : ∀ k, b k = .error (.serviceUnavailable (msg k))) :
    (∀ step fuel k0,
      retryLoop delays step b fuel k0 =
        ((List.range' k0 (fuel + 1)).map (fun j => (step, j)),
         (List.range' k0 (fuel + 1)).map (fun j =>
           LogEvent.warnRetry step (.serviceUnavailable (msg j)) (delays j)),
         none))
    ∧ (∀ (pre post : List (Nat → Except Error Unit)) (fuel : Nat),
        (∀ b' ∈ pre, b' 0 = .ok ()) →
        (populate delays (pre ++ b :: post) fuel).2.2 = none)
    ∧ (∀ (pre post : List (Nat → Except Error Unit)) (fuel : Nat)
        (hasReaders : Bool), (∀ b' ∈ pre, b' 0 = .ok ()) →
        populate_start hasReaders delays (pre ++ b :: post) fuel =
          ([], [PopulateStatus.NotDone]))
    ∧ (∀ (steps : List (Nat → Except Error Unit)) (fuel idx : Nat),
        b ∈ steps →
        (populateFrom delays fuel steps idx).2.2 ≠ some (.ok ())) := by
  have hloop : ∀ step fuel k0,
      retryLoop delays step b fuel k0 =
        ((List.range' k0 (fuel + 1)).map (fun j => (step, j)),
         (List.range' k0 (fuel + 1)).map (fun j =>
           LogEvent.warnRetry step (.serviceUnavailable (msg j)) (delays j)),
         none) := by
    intro step fuel
    induction fuel with
    | zero =>
      intro k0
      conv_lhs => rw [retryLoop]
      rw [hb k0]
      simp [isTransientError, List.range']
    | succ f ih =>
      intro k0
      conv_lhs => rw [retryLoop]
      rw [hb k0]
      simp only [isTransientError, if_true]
      rw [ih (k0 + 1)]
      simp [List.range'_succ]
  have hrun : ∀ (pre post : List (Nat → Except Error Unit)) (fuel idx : Nat),
      (∀ b' ∈ pre, b' 0 = .ok ()) →
      (populateFrom delays fuel (pre ++ b :: post) idx).2.2 = none := by
    intro pre post fuel
    induction pre with
    | nil =>
      intro idx _
      simp only [List.nil_append]
      rw [populateFrom, hloop idx fuel 0]
    | cons b' pre ih =>
      intro idx hpre
      have hb' : retryLoop delays idx b' fuel 0 =
          ([(idx, 0)], [], some (.ok ())) := by
        rw [retryLoop, hpre b' (List.mem_cons_self b' pre)]
      simp only [List.cons_append]
      rw [populateFrom, hb']
      simpa using ih (idx + 1) (fun x hx => hpre x (List.mem_cons_of_mem b' hx))
  refine ⟨hloop, ?_, ?_, ?_⟩
  · intro pre post fuel hpre
    exact hrun pre post fuel 0 hpre
  · intro pre post fuel hasReaders hpre
    rw [populate_start, populate, hrun pre post fuel 0 hpre]
  · intro steps
    induction steps with
    | nil => intro fuel idx h; simp at h
    | cons b' rest ih =>
      intro fuel idx hmem h
      rcases List.mem_cons.mp hmem with rfl | hmem'
      · rw [populateFrom, hloop idx fuel 0] at h
        simp at h
      · rw [populateFrom] at h
        rcases hrl : (retryLoop delays idx b' fuel 0).2.2 with _ | r
        · rw [hrl] at h
          simp at h
        · rcases r with m | u
          · rw [hrl] at h
            simp at h
          · rw [hrl] at h
            simp only at h
            exact ih fuel (idx + 1) hmem' (by simpa using h)

/-- Closed instance of `claim_C5`: a single always-unavailable step
leaves the status cell at `NotDone` — the run reaches neither `Done` nor
`Failed`. -/
theorem claim_C5_witness :
    populate_start true (fun _ => 1)
      [fun _ => .error (.serviceUnavailable "down")] 3 =
      ([], [PopulateStatus.NotDone]) :=
  (claim_C5 (fun _ => 1) (fun _ => "down")
      (fun _ => .error (.serviceUnavailable "down")) (fun _ => rfl)).2.2.1
    [] [] 3 true (by simp)

/-- Membership in an idempotent insert. -/
theorem mem_insertAbsent {α : Type} [DecidableEq α] (x y : α) (xs : List α) :
    y ∈ insertAbsent x xs ↔ y = x ∨ y ∈ xs := by
  unfold insertAbsent
  split
  · rename_i h
    exact ⟨Or.inr, fun hy => hy.elim (fun e => e ▸ h) id⟩
  · simp [List.mem_append, or_comm]

/-- Inserting a present element changes nothing. -/
theorem insertAbsent_of_mem {α : Type} [DecidableEq α] {x : α} {xs : List α}
    (h : x ∈ xs) : insertAbsent x xs = xs := if_pos h

/-- The inserted element is present afterwards. -/
theorem mem_insertAbsent_self {α : Type} [DecidableEq α] (x : α)
    (xs : List α) : x ∈ insertAbsent x xs :=
  (mem_insertAbsent x x xs).mpr (Or.inl rfl)

/-- Idempotent insert is idempotent. -/
theorem insertAbsent_idem {α : Type} [DecidableEq α] (x : α) (xs : List α) :
    insertAbsent x (insertAbsent x xs) = insertAbsent x xs :=
  insertAbsent_of_mem (mem_insertAbsent_self x xs)

/-- Unfolding of `insertAll` on a cons cell. -/
theorem insertAll_cons {α : Type} [DecidableEq α] (a : α) (l xs : List α) :
    insertAll (a :: l) xs = insertAll l (insertAbsent a xs) := rfl

/-- Inserting a list of already-present elements changes nothing. -/
theorem insertAll_of_mem {α : Type} [DecidableEq α] (l : List α) :
    ∀ xs : List α, (∀ x ∈ l, x ∈ xs) → insertAll l xs = xs := by
  induction l with
  | nil => intro xs _; rfl
  | cons a l ih =>
    intro xs h
    rw [insertAll_cons, insertAbsent_of_mem (h a (List.mem_cons_self a l))]
    exact ih xs fun x hx => h x (List.mem_cons_of_mem a hx)

/-- Old members survive `insertAll`. -/
theorem mem_insertAll_of_mem {α : Type} [DecidableEq α] (l : List α) :
    ∀ {xs : List α} {y : α}, y ∈ xs → y ∈ insertAll l xs := by
  induction l with
  | nil => intro xs y h; exact h
  | cons a l ih =>
    intro xs y h
    rw [insertAll_cons]
    exact ih ((mem_insertAbsent a y xs).mpr (Or.inr h))

/-- Every inserted element is present after `insertAll`. -/
theorem mem_insertAll_self {α : Type} [DecidableEq α] (l : List α) :
    ∀ (xs : List α), ∀ y ∈ l, y ∈ insertAll l xs := by
  induction l with
  | nil => intro xs y hy; cases hy
  | cons a l ih =>
    intro xs y hy
    rw [insertAll_cons]
    rcases List.mem_cons.mp hy with rfl | hy'
    · exact mem_insertAll_of_mem l (mem_insertAbsent_self y xs)
    · exact ih (insertAbsent a xs) y hy'

/-- Inserting a fixed list twice is the same as inserting it once. -/
theorem insertAll_idem {α : Type} [DecidableEq α] (l xs : List α) :
    insertAll l (insertAll l xs) = insertAll l xs :=
  insertAll_of_mem l (insertAll l xs) (mem_insertAll_self l xs)

/-- The rack insert of the spec-modelled datastore, unfolded. -/
theorem specRack_insert (r : Rack) (s : Store) :
    specDataStore.rack_insert r s =
      .ok { s with racks := insertAbsent r.id s.racks } := rfl

/-- An IP pool creation of the spec-modelled datastore, with the rack
populator's already-exists tolerance applied, nets out to an idempotent
insert of the pool name. -/
theorem specPool_step (p : IpPoolCreate) (internal : Bool) (s : Store) :
    orElseAlreadyExists (specDataStore.ip_pool_create p internal s) s =
      .ok { s with ip_pools := insertAbsent p.identity.name s.ip_pools } := by
  by_cases h : p.identity.name ∈ s.ip_pools <;>
    simp [specDataStore, orElseAlreadyExists, insertAbsent, h]

/-- The store state reached by one run of the rack populator against the
spec-modelled datastore. -/
def rackNext (args : PopulateArgs) (s : Store) : Store :=
  { s with
      racks := insertAbsent args.rack_id s.racks
      ip_pools := insertAbsent "default"
        (insertAbsent "oxide-service-pool" s.ip_pools) }

/-- The rack populator always succeeds against the spec-modelled
datastore and reaches `rackNext`. -/
theorem populateRack_spec (args : PopulateArgs) (s : Store) :
    populateRack.populate specDataStore s args = .ok (rackNext args s) := by
  simp [populateRack, Bind.bind, Except.bind, specRack_insert, specPool_step,
    rackNext]
  rfl

/-- One rack-populator pass is a fixed point of a second pass. -/
theorem rackNext_idem (args : PopulateArgs) (s : Store) :
    rackNext args (rackNext args s) = rackNext args s := by
  have h1 : ("oxide-service-pool" : String) ∈
      insertAbsent "default" (insertAbsent "oxide-service-pool" s.ip_pools) :=
    (mem_insertAbsent _ _ _).mpr (Or.inr (mem_insertAbsent_self _ _))
  have h2 : ("default" : String) ∈
      insertAbsent "default" (insertAbsent "oxide-service-pool" s.ip_pools) :=
    mem_insertAbsent_self _ _
  simp [rackNext, insertAbsent_idem, insertAbsent_of_mem h1,
    insertAbsent_of_mem h2]

/-- C6: every populator of the registry is idempotent against the
spec-modelled datastore — from any store state, running it succeeds, and
running it a second time from the reached state succeeds again and
leaves the store in exactly the state one run produced, creating no
duplicate logical entities. -/
theorem claim_C6 (p : NamedPopulator) (hp : p ∈ ALL_POPULATORS)
    (s : Store) (args : PopulateArgs) :
    ∃ s', p.populate specDataStore s args = .ok s'
      ∧ p.populate specDataStore s' args = .ok s' := by
  simp only [ALL_POPULATORS, List.mem_cons, List.not_mem_nil, or_false] at hp
  rcases hp with rfl | rfl | rfl | rfl | rfl | rfl | rfl | rfl
  · exact ⟨_, rfl, by
      simp [populateBuiltinUsers, specDataStore, insertAll_idem]⟩
  · exact ⟨_, rfl, by
      simp [populateBuiltinRoles, specDataStore, insertAll_idem]⟩
  · exact ⟨_, rfl, by
      simp [populateBuiltinRoleAssignments, specDataStore, insertAll_idem]⟩
  · exact ⟨_, rfl, by
      simp [populateBuiltinSilos, specDataStore, insertAll_idem]⟩
  · exact ⟨_, rfl, by
      simp [populateSiloUsers, specDataStore, insertAll_idem]⟩
  · exact ⟨_, rfl, by
      simp [populateSiloUserRoleAssignments, specDataStore, insertAll_idem]⟩
  · exact ⟨_, rfl, by
      simp [populateFleet, specDataStore, insertAbsent_idem]⟩
  · exact ⟨rackNext args s, populateRack_spec args s, by
      rw [populateRack_spec args (rackNext args s), rackNext_idem]⟩

/-- Closed instance of `claim_C6`: the built-in users populator is
idempotent from the empty store. -/
theorem claim_C6_witness :
    ∃ s', populateBuiltinUsers.populate specDataStore emptyStore
        { rack_id := 0 } = .ok s'
      ∧ populateBuiltinUsers.populate specDataStore s' { rack_id := 0 } =
          .ok s' :=
  claim_C6 populateBuiltinUsers (by simp [ALL_POPULATORS]) emptyStore
    { rack_id := 0 }

end Populate
